import Mathlib

/-!
Verification of the referential-integrity and orphan-cleanup subsystem of a
bookstore web API (Flask + SQLAlchemy + PostgreSQL).

The database is embedded shallowly: each table is a list of rows, and every
handler or ORM event listener from the source is translated into a pure
function on `DBState`.  Monetary amounts (`price`, `price_total`) are kept in
integer cents: the columns are `Numeric(5,2)` / `Numeric(6,2)`, which store
exact two-decimal values, so cents-as-`Nat` arithmetic matches the stored
values (the transient `float` detour in `update_order` is absorbed by the
`Numeric(6,2)` quantisation on write, whose error bound is far below half a
cent at the enforced magnitudes).  Text columns that no claim depends on
(isbn, title, street, ...) are carried only where a validator of the claim
under study reads them.
-/

/-- Row of the `names` table (`names_model.py`): surrogate key, required
`first_name`, optional `last_name`. -/
structure NameRow where
  id : Nat
  first_name : String
  last_name : Option String
deriving Repr, DecidableEq

/-- Row of the `addresses` table (`addresses_model.py`): surrogate key plus
the five postal columns (`city` nullable). -/
structure AddressRow where
  id : Nat
  country_code : String
  state_code : String
  city : Option String
  street : String
  postcode : String
deriving Repr, DecidableEq

/-- Row of the `authors` table (`authors_model.py`): surrogate key plus the
unique FK `name_id → names.id` (declared `ondelete="RESTRICT"`). -/
structure AuthorRow where
  id : Nat
  name_id : Nat
deriving Repr, DecidableEq

/-- Row of the `customers` table (`customers_model.py`): unique `email`,
unique FK `name_id → names.id` (RESTRICT) and nullable FK
`address_id → addresses.id` (SET NULL). -/
structure CustomerRow where
  id : Nat
  email : String
  phone : Option String
  name_id : Nat
  address_id : Option Nat
deriving Repr, DecidableEq

/-- Row of the `books` table (`books_model.py`).  `price` is integer cents of
the `Numeric(5,2)` column; `discontinued` is the boolean flag read by
`validate_price`. -/
structure BookRow where
  id : Nat
  price : Nat
  discontinued : Bool
deriving Repr, DecidableEq

/-- Row of the `book_authors` junction table (`book_authors_model.py`):
composite primary key `(book_id, author_id)`, both FKs `ondelete="CASCADE"`. -/
structure BookAuthorRow where
  book_id : Nat
  author_id : Nat
deriving Repr, DecidableEq

/-- Row of the `orders` table (`orders_model.py`): FK
`customer_id → customers.id` (RESTRICT) and the cached `price_total`
(integer cents of the `Numeric(6,2)` column). -/
structure OrderRow where
  id : Nat
  customer_id : Nat
  price_total : Nat
deriving Repr, DecidableEq

/-- Row of the `order_items` junction table (`order_items_model.py`):
composite primary key `(book_id, order_id)`; `book_id` is
`ondelete="RESTRICT"`, `order_id` is `ondelete="CASCADE"`. -/
structure OrderItemRow where
  book_id : Nat
  order_id : Nat
  quantity : Nat
deriving Repr, DecidableEq

/-- The whole relational state, one list per table. -/
structure DBState where
  names : List NameRow
  addresses : List AddressRow
  authors : List AuthorRow
  customers : List CustomerRow
  books : List BookRow
  book_authors : List BookAuthorRow
  orders : List OrderRow
  order_items : List OrderItemRow
deriving Repr, DecidableEq

/-- Embeds the `after_delete` listener `delete_orphaned_author`
(`book_authors_model.py`, lines 67-94).  After a `book_authors` row is
flushed as deleted it (a) deletes the Author row when no `book_authors` row
references `author_id` any more, then (b) independently deletes the Book row
when no `book_authors` row references `book_id` any more.  Both deletes are
issued on the raw connection (`db_conn.execute(delete(Author)...)`), i.e. as
SQL `DELETE` statements: they bypass the ORM session, so the ORM-level
`cascade="all, delete-orphan"` of `Author.name` does not fire here, and no
database-level action deletes the `names` row (the `Author.name_id` FK is
`RESTRICT` against deleting the *Name*, and nothing cascades from `authors`
to `names`).  The author delete itself cannot violate a constraint (only
`book_authors` references `authors`, and it runs only when no such row
remains), but the book delete is checked by the database:
`OrderItem.book_id` is `ondelete="RESTRICT"` (`order_items_model.py`, lines
27-29), so when the orphaned book is still referenced by `order_items` the
DELETE raises a foreign-key violation that aborts the whole flush — the
enclosing transaction rolls back, the triggering junction delete and the
author delete included. -/
def delete_orphaned_author (st : DBState) (deleted : BookAuthorRow) :
    Except String DBState :=
  let author_exists := st.book_authors.any (fun ba => ba.author_id == deleted.author_id)
  let st1 :=
    if author_exists then st
    else { st with authors := st.authors.filter (fun a => a.id != deleted.author_id) }
  let book_exists := st1.book_authors.any (fun ba => ba.book_id == deleted.book_id)
  if book_exists then .ok st1
  else if st1.order_items.any (fun oi => oi.book_id == deleted.book_id) then
    .error "ForeignKeyViolation: books row is still referenced by order_items"
  else .ok { st1 with books := st1.books.filter (fun b => b.id != deleted.book_id) }

/-- An ORM-session delete of one `book_authors` row followed by its
`after_delete` listener: the DELETE removes the row with this composite key,
then `delete_orphaned_author` runs against the post-delete state (the
listener fires after the row is flushed away, `book_authors_model.py`).  An
error is a flush-time `IntegrityError`: the transaction aborts and nothing
— the junction delete included — is persisted. -/
def deleteBookAuthorRow (st : DBState) (ba : BookAuthorRow) : Except String DBState :=
  delete_orphaned_author
    { st with
      book_authors := st.book_authors.filter
        (fun x => !(x.book_id == ba.book_id && x.author_id == ba.author_id)) }
    ba

/-- Embeds the `after_delete` listener `delete_orphaned_address`
(`customers_model.py`, lines 124-142).  `if deleted_customer.address_id:` is
Python truthiness: it skips both `None` and `0` (ids are validated positive,
so `0` never occurs in a persisted row).  When no customer row references the
address any more, the address row is deleted on the raw connection. -/
def delete_orphaned_address (st : DBState) (deleted : CustomerRow) : DBState :=
  match deleted.address_id with
  | none => st
  | some aid =>
    if aid == 0 then st
    else
      let customer_exists := st.customers.any (fun c => c.address_id == some aid)
      if customer_exists then st
      else { st with addresses := st.addresses.filter (fun a => a.id != aid) }

/-- Embeds the `after_delete` listener `delete_orphaned_order`
(`order_items_model.py`, lines 85-102): after an `order_items` row is
deleted, the order row is deleted when no `order_items` row references
`order_id` any more. -/
def delete_orphaned_order (st : DBState) (deleted : OrderItemRow) : DBState :=
  let item_exists := st.order_items.any (fun oi => oi.order_id == deleted.order_id)
  if item_exists then st
  else { st with orders := st.orders.filter (fun o => o.id != deleted.order_id) }

/-- An ORM-session delete of one `order_items` row followed by its
`after_delete` listener (`order_items_model.py`). -/
def deleteOrderItemRow (st : DBState) (oi : OrderItemRow) : DBState :=
  let st1 := { st with
    order_items := st.order_items.filter
      (fun x => !(x.book_id == oi.book_id && x.order_id == oi.order_id)) }
  delete_orphaned_order st1 oi

/-- Embeds the `DELETE /customers/(id)` handler `delete_customer`
(`customers_controllers.py`): id gate, 404 lookup, then
`db.session.delete(customer)` + commit.  The flush can fail on two declared
FK actions, each surfacing as an `IntegrityError` answered 400 with the
whole transaction rolled back: `Order.customer_id` is `ondelete="RESTRICT"`
(`orders_model.py`, lines 17-19), so the customer row cannot be deleted
while any order references it; and `Author.name_id` / `Customer.name_id`
are `ondelete="RESTRICT"` against the cascaded delete of the owned Name
(the deleting customer's own row is already gone at that point, so only
authors — or, on a state violating the UNIQUE(name_id) constraint, another
customer — can block it).  On success the ORM delete of the customer also
deletes its Name through the session-level `cascade="all, delete-orphan"`
of `Customer.name` (`customers_model.py`), and the `after_delete` listener
`delete_orphaned_address` runs against the post-delete state (the address
delete itself cannot fail: nothing but `customers` references `addresses`,
with `SET NULL`). -/
def delete_customer_route (st : DBState) (customer_id : Nat) : Nat × DBState :=
  if customer_id < 1 then (400, st)
  else
    match st.customers.find? (fun c => c.id == customer_id) with
    | none => (404, st)
    | some c =>
      if st.orders.any (fun o => o.customer_id == customer_id) then (400, st)
      else if st.authors.any (fun a => a.name_id == c.name_id)
          || st.customers.any (fun x => x.id != customer_id && x.name_id == c.name_id) then
        (400, st)
      else
        let st1 := { st with
          customers := st.customers.filter (fun x => x.id != customer_id),
          names := st.names.filter (fun n => n.id != c.name_id) }
        (200, delete_orphaned_address st1 c)

/-- Embeds the `PUT`/`PATCH /customers/(id)` handler `update_customer`
(`customers_controllers.py`, lines 97-112) restricted to a payload that
repoints `address_id` (the only field the address-orphaning claim depends
on): after the id gate and lookup, the handler just runs
`setattr(customer, field, value)` for each supplied field and commits.  A
supplied `address_id` must be a positive integer (model validator,
`ValueError` → 400) and must exist (`customers.address_id → addresses.id`
FK checked at commit, `IntegrityError` → 400, rollback).  No event listener
fires on an UPDATE, so no orphan cleanup of any kind runs on this path —
on every branch, success or failure, the `addresses` table is untouched. -/
def update_customer_route (st : DBState) (customer_id : Nat)
    (new_address_id : Option Nat) : Nat × DBState :=
  if customer_id < 1 then (400, st)
  else
    match st.customers.find? (fun c => c.id == customer_id) with
    | none => (404, st)
    | some _ =>
      match new_address_id with
      | some naid =>
        if naid < 1 then (400, st)
        else if !(st.addresses.any (fun a2 => a2.id == naid)) then (400, st)
        else
          (200, { st with
            customers := st.customers.map
              (fun x => if x.id == customer_id then { x with address_id := new_address_id }
                else x) })
      | none =>
        (200, { st with
          customers := st.customers.map
            (fun x => if x.id == customer_id then { x with address_id := new_address_id }
              else x) })

/-- Embeds a storage-level `DELETE FROM names WHERE id = name_id` under the
declared FK delete actions: both `Author.name_id → names.id` and
`Customer.name_id → names.id` are `ondelete="RESTRICT"`
(`authors_model.py` lines 17-25, `customers_model.py` lines 31-42), so the
database refuses the delete with a foreign-key violation while any author or
customer row still references the name. -/
def deleteNameRow (st : DBState) (name_id : Nat) : Except String DBState :=
  if st.authors.any (fun a => a.name_id == name_id)
      || st.customers.any (fun c => c.name_id == name_id) then
    .error "ForeignKeyViolation: names row is still referenced"
  else
    .ok { st with names := st.names.filter (fun n => n.id != name_id) }

/-- Embeds the `DELETE /books/(id)` handler `delete_book`
(`books_controllers.py`, lines 140-168).  The handler deletes every
`book_authors` row of the book through the session and flushes; each flushed
delete fires `delete_orphaned_author`.  When the last junction row leaves
the book orphaned while `order_items` still reference it
(`OrderItem.book_id` is `ondelete="RESTRICT"`, `order_items_model.py`), the
listener's book delete raises mid-flush: `handle_errors` answers 400 and
the transaction — every junction and author delete included — rolls back.
On a successful flush the handler then iterates `book.authors` — a lazy
secondary relationship through `book_authors` that is first loaded *after*
the flush, so the join finds no rows for this book and the loop body (the
explicit author/name cleanup) runs zero times, leaving it no failure path.
Finally the book row itself is deleted — a no-op when the last listener
already removed it, and otherwise (a book with no authors) subject to the
same `order_items` RESTRICT, again a 400 with rollback — and the
transaction commits. -/
def delete_book_route (st : DBState) (book_id : Nat) : Nat × DBState :=
  if book_id < 1 then (400, st)
  else
    match st.books.find? (fun b => b.id == book_id) with
    | none => (404, st)
    | some _ =>
      let bas := st.book_authors.filter (fun ba => ba.book_id == book_id)
      match bas.foldlM deleteBookAuthorRow st with
      | .error _ => (400, st)
      | .ok st1 =>
        let authorsNow := st1.authors.filter (fun a =>
          st1.book_authors.any (fun ba => ba.book_id == book_id && ba.author_id == a.id))
        let st2 := authorsNow.foldl
          (fun s a =>
            if s.book_authors.any (fun ba => ba.author_id == a.id) then s
            else { s with
              authors := s.authors.filter (fun x => x.id != a.id),
              names := s.names.filter (fun n => n.id != a.name_id) })
          st1
        if st2.order_items.any (fun oi => oi.book_id == book_id) then (400, st)
        else (200, { st2 with books := st2.books.filter (fun b => b.id != book_id) })

/-- Error taxonomy matched by the `handle_errors` decorator
(`utils/error_handling.py`, lines 41-100): Flask `HTTPException` (from
`abort`), marshmallow `ValidationError`, model-level `ValueError`, database
`IntegrityError` / `OperationalError`, and the catch-all `SQLAlchemyError`. -/
inductive ApiErr where
  | httpException (code : Nat) (msg : String)
  | validationErr (msg : String)
  | valueErr (msg : String)
  | integrityErr (msg : String)
  | operationalErr
  | sqlalchemyErr (msg : String)
deriving Repr, DecidableEq

/-- Status code `handle_errors` attaches to each exception class
(`utils/error_handling.py`): the `abort` code itself for `HTTPException`,
400 for schema validation, model validation and every `IntegrityError`
branch, 503 for `OperationalError`, 500 for other `SQLAlchemyError`s. -/
def errStatus : ApiErr → Nat
  | .httpException code _ => code
  | .validationErr _ => 400
  | .valueErr _ => 400
  | .integrityErr _ => 400
  | .operationalErr => 503
  | .sqlalchemyErr _ => 500

/-- Embeds the `handle_errors` decorator (`utils/error_handling.py`): the
route body either commits and returns its response, or raises; on a raise the
decorator answers `errStatus` and — for the database errors — rolls the
session back, so the persisted state stays the pre-request state.  (For the
pre-commit exception classes no commit ever ran, so the persisted state is
likewise unchanged.) -/
def handle_errors (route : DBState → Except ApiErr (DBState × Nat))
    (st : DBState) : DBState × Nat :=
  match route st with
  | .ok r => r
  | .error e => (st, errStatus e)

/-- One entry of the `order_items` array of an order payload, as it comes out
of `OrderItemSchema` (`order_items_schema.py`): `book_id` and `quantity` are
`required=True`, so `none` can survive the load only under a partial (PATCH)
load; a present `quantity` must satisfy `Range(min=1)`. -/
structure OrderItemInput where
  book_id : Option Nat
  quantity : Option Nat
deriving Repr, DecidableEq

/-- An order payload as it comes out of `OrderSchema` (`orders_schema.py`):
`customer_id` and `price_total` are `required=True` (absent only under a
partial load); the nested `order_items` field itself is optional.
`price_total` is integer cents of the float field. -/
structure OrderInput where
  customer_id : Option Nat
  price_total : Option Nat
  order_items : Option (List OrderItemInput)
deriving Repr, DecidableEq

/-- `OrderItemSchema` validation of one entry (`order_items_schema.py`):
`book_id` required, `quantity` required with `Range(min=1)`.  With
`true_if_patch` the surrounding `order_schema.load(..., partial=True)`
propagates partiality into the nested schema, so absent fields pass. -/
def schema_check_order_item (true_if_patch : Bool) (it : OrderItemInput) :
    Except ApiErr Unit := do
  match it.book_id with
  | none =>
    if true_if_patch then pure ()
    else throw (.validationErr "book_id is required")
  | some _ => pure ()
  match it.quantity with
  | none =>
    if true_if_patch then pure ()
    else throw (.validationErr "quantity is required and must be an integer")
  | some q =>
    if q < 1 then throw (.validationErr "quantity must be at least 1") else pure ()

/-- Embeds `order_schema.load(json_data, partial=true_if_patch, ...)`
(`orders_schema.py` plus the nested `order_items_schema.py`): `customer_id`
required with `Range(min=1)`, `price_total` required with
`Range(min=0, max=9999.99)` (cents ≤ 999999; the lower bound cannot fail on
`Nat` cents), and each present `order_items` entry checked by
`schema_check_order_item`. -/
def load_order_schema (true_if_patch : Bool) (inp : OrderInput) :
    Except ApiErr OrderInput := do
  match inp.customer_id with
  | none =>
    if true_if_patch then pure ()
    else throw (.validationErr "customer_id is required")
  | some c =>
    if c < 1 then
      throw (.validationErr "address_id must be a positive integer if provided")
    else pure ()
  match inp.price_total with
  | none =>
    if true_if_patch then pure ()
    else throw (.validationErr "price is required, and must be a float")
  | some p =>
    if 999999 < p then throw (.validationErr "price must be between 0 and 999.99")
    else pure ()
  match inp.order_items with
  | none => pure ()
  | some items => items.forM (schema_check_order_item true_if_patch)
  pure inp

/-- Accumulator of the `for order_item in updated_items` loop of
`update_order` (`orders_controllers.py`, lines 136-164): the `checked_books`
set, the running `total_price` (cents), the new `OrderItem` rows added to the
session, and the quantity overwrites applied to existing items (in request
order; a later overwrite of the same book wins, as each assignment hits the
same ORM object). -/
structure LoopState where
  checked_books : List Nat
  total : Nat
  newItems : List OrderItemRow
  qtyUpdates : List (Nat × Nat)
deriving Repr, DecidableEq

/-- Embeds the body of the `for order_item in updated_items` loop of
`update_order` (`orders_controllers.py`, lines 136-164).  `existingItems` is
the `order.order_items` collection as loaded once at its first access —
i.e. the order's pre-request rows; rows added during the loop never join it.
`if not book_id` is Python truthiness (`None` or `0`).  In the
existing-item branch the book row is read through the item's FK
relationship (`existing_item.book`), the entry's quantity (defaulted to 1)
overwrites the item, and `checked_books` is NOT consulted — only the
new-item branch rejects a duplicated book. -/
def processItems (st : DBState) (oid : Nat) (existingItems : List OrderItemRow) :
    List OrderItemInput → LoopState → Except ApiErr LoopState
  | [], acc => .ok acc
  | it :: rest, acc =>
    match it.book_id with
    | none => .error (.httpException 400 "book_id is required for order_items")
    | some book_id =>
      if book_id == 0 then .error (.httpException 400 "book_id is required for order_items")
      else
        let quantity := it.quantity.getD 1
        match existingItems.find? (fun x => x.book_id == book_id) with
        | some exItem =>
          match st.books.find? (fun b => b.id == exItem.book_id) with
          | none =>
            -- unreachable when FKs hold: `existing_item.book` always loads a row
            .error (.sqlalchemyErr "order_items.book_id has no books row")
          | some book =>
            processItems st oid existingItems rest
              { checked_books := book_id :: acc.checked_books
                total := acc.total + book.price * quantity
                newItems := acc.newItems
                qtyUpdates := acc.qtyUpdates ++ [(book_id, quantity)] }
        | none =>
          match st.books.find? (fun b => b.id == book_id) with
          | none => .error (.httpException 404 "Book not found")
          | some book =>
            if acc.checked_books.contains book_id then
              .error (.httpException 400 "Book is duplicated")
            else
              processItems st oid existingItems rest
                { checked_books := book_id :: acc.checked_books
                  total := acc.total + book.price * quantity
                  newItems := acc.newItems ++ [⟨book_id, oid, quantity⟩]
                  qtyUpdates := acc.qtyUpdates }

/-- Applies the quantity overwrites recorded by `processItems` to the
`order_items` table, in request order (later overwrite of the same book
wins), touching only rows of order `oid`. -/
def applyQtyUpdates (oid : Nat) (items : List OrderItemRow)
    (upds : List (Nat × Nat)) : List OrderItemRow :=
  upds.foldl
    (fun its u => its.map (fun x =>
      if x.order_id == oid && x.book_id == u.1 then { x with quantity := u.2 } else x))
    items

/-- HTTP method of the shared `PUT`/`PATCH` handlers. -/
inductive HttpMethod where
  | put
  | patch
deriving Repr, DecidableEq

/-- Embeds the `PUT`/`PATCH /orders/(id)` handler `update_order`
(`orders_controllers.py`, lines 97-175): id gate, 404 lookup, JSON gate,
schema load with `partial = (method == PATCH)`, the `customer_id`
immutability check, the `order_items` presence / non-emptiness checks, the
item loop (`processItems`), the deletion of old items whose book is not in
`checked_books` (each flushed delete firing `delete_orphaned_order`), the
`order.price_total = total_price` assignment (whose model validator rejects
totals above 9999.99 with a `ValueError` before anything commits), and the
final commit.  At the commit flush SQLAlchemy runs inserts and updates
before deletes, so the listener's existence query sees the new rows. -/
def update_order_route (st : DBState) (order_id : Nat) (method : HttpMethod)
    (body : Option OrderInput) : Nat × DBState :=
  if order_id < 1 then (400, st)
  else
    match st.orders.find? (fun o => o.id == order_id) with
    | none => (404, st)
    | some order =>
      match body with
      | none => (400, st)
      | some raw =>
        let true_if_patch := method == HttpMethod.patch
        match load_order_schema true_if_patch raw with
        | .error _ => (400, st)
        | .ok data =>
          if (match data.customer_id with
              | some c => c != order.customer_id
              | none => false) then (400, st)
          else
            match data.order_items with
            | none => (400, st)
            | some updated_items =>
              if updated_items.length == 0 then (400, st)
              else
                let existingItems := st.order_items.filter (fun x => x.order_id == order_id)
                match processItems st order_id existingItems updated_items ⟨[], 0, [], []⟩ with
                | .error e => (errStatus e, st)
                | .ok acc =>
                  if 999999 < acc.total then (400, st)
                  else
                    let toDelete := existingItems.filter
                      (fun x => !acc.checked_books.contains x.book_id)
                    let stIns := { st with
                      order_items :=
                        applyQtyUpdates order_id st.order_items acc.qtyUpdates
                          ++ acc.newItems,
                      orders := st.orders.map (fun o =>
                        if o.id == order_id then { o with price_total := acc.total } else o) }
                    (200, toDelete.foldl deleteOrderItemRow stIns)

/-- Next value of the `orders.id` sequence for an insert. -/
def freshOrderId (st : DBState) : Nat :=
  st.orders.foldl (fun m o => max m o.id) 0 + 1

/-- Embeds the `for item in order_items_data` loop of `create_order`
(`orders_controllers.py`, lines 44-56): per entry, the book is looked up
(404 when absent), `quantity = item.get("quantity", 1)`, the running total
grows by `book.price * quantity`, and an `OrderItem` row is staged.  A
missing `book_id` key would be an uncaught `KeyError` (a generic 500), but a
non-partial schema load guarantees the key. -/
def createItems (st : DBState) (oid : Nat) :
    List OrderItemInput → Except ApiErr (Nat × List OrderItemRow)
  | [] => .ok (0, [])
  | it :: rest =>
    match it.book_id with
    | none => .error (.sqlalchemyErr "KeyError: book_id")
    | some book_id =>
      match st.books.find? (fun b => b.id == book_id) with
      | none => .error (.httpException 404 "Book not found")
      | some book =>
        let quantity := it.quantity.getD 1
        (createItems st oid rest).map
          (fun r => (book.price * quantity + r.1, ⟨book_id, oid, quantity⟩ :: r.2))

/-- Embeds the `POST /orders` handler `create_order`
(`orders_controllers.py`, lines 19-62): JSON gate (400 here, unlike the
customers/addresses creates), full schema load, customer lookup (404),
order_items non-emptiness (400), the item loop, the
`order.price_total = total_price` assignment (model validator caps it at
9999.99), and the commit — at which the composite primary key
`(book_id, order_id)` rejects duplicated books in the payload with a
database uniqueness error (400). -/
def create_order_route (st : DBState) (body : Option OrderInput) : Nat × DBState :=
  match body with
  | none => (400, st)
  | some raw =>
    match load_order_schema false raw with
    | .error _ => (400, st)
    | .ok data =>
      match data.customer_id with
      | none => (400, st)
      | some customer_id =>
        match st.customers.find? (fun c => c.id == customer_id) with
        | none => (404, st)
        | some _ =>
          match data.order_items.getD [] with
          | [] => (400, st)
          | items =>
            let oid := freshOrderId st
            match createItems st oid items with
            | .error e => (errStatus e, st)
            | .ok (total, rows) =>
              if 999999 < total then (400, st)
              else if !(rows.map (fun r => (r.book_id, r.order_id))).Nodup then (400, st)
              else
                (201, { st with
                  orders := st.orders ++ [⟨oid, customer_id, total⟩],
                  order_items := st.order_items ++ rows })

/-- Embeds `Book.validate_price` (`books_model.py`, lines 94-102): the value
first runs through `checks_input(value, "price", float, min_val=0,
max_val=999.99)` (with prices as `Nat` cents only the upper bound can fail),
then the cross-field check — taken verbatim from the source —
`if value == 0 and self.discontinued is True: raise
ValueError("Price can only be 0 if discontinued")`.  `discontinued` is the
flag already set on the instance when `price` is assigned (both the model's
column order and the schema's field order put `discontinued` first). -/
def validate_price (discontinued : Bool) (price : Nat) : Except String Nat :=
  if 99999 < price then .error "price must be between 0 and 999.99."
  else if price == 0 && discontinued then .error "Price can only be 0 if discontinued"
  else .ok price

/-- Embeds the `price` field of `BookSchema` (`books_schema.py`, lines
82-86): `fields.Float(required=True, validate=[Range(min=0, max=999.99)])`.
No cross-field check against `discontinued` exists at the schema layer. -/
def bookSchema_price_field (price : Option Nat) : Except String Nat :=
  match price with
  | none => .error "price is required, 0 if discontinued"
  | some p =>
    if 99999 < p then .error "price must be between 0 and 999.99"
    else .ok p

/-- Embeds the string path of `checks_input` (`utils/validation.py`):
presence check, whitespace strip, required-nonempty check, then the
exact-length / window / lower-bound / upper-bound checks in source order.
Error texts are abbreviated (no claim reads them). -/
def checks_input_str (value : Option String) (column_name : String)
    (required : Bool) (min_len max_len : Option Nat) : Except String (Option String) :=
  match value with
  | none =>
    if required then .error (column_name ++ " is required") else .ok none
  | some v0 =>
    let v := v0.trim
    if required && v.length == 0 then
      .error (column_name ++ " is required and cannot be empty")
    else if (match min_len, max_len with
        | some mn, some mx => mn == mx && v.length != mx
        | _, _ => false) then
      .error (column_name ++ " must be exactly the fixed number of characters")
    else if (match min_len, max_len with
        | some mn, some mx => !(decide (mn ≤ v.length) && decide (v.length ≤ mx))
        | _, _ => false) then
      .error (column_name ++ " must be between the min and max characters.")
    else if (match min_len with
        | some mn => decide (v.length < mn)
        | none => false) then
      .error (column_name ++ " must be at least the min characters")
    else if (match max_len with
        | some mx => decide (mx < v.length)
        | none => false) then
      .error (column_name ++ " cannot exceed the max characters")
    else .ok (some v)

/-- Python `str.title()` restricted to space-separated words (the source only
ever title-cases human-entered text; no claim reads the normalised value, and
non-space word boundaries are not modelled). -/
def pyTitle (s : String) : String :=
  String.intercalate " " ((s.splitOn " ").map String.capitalize)

/-- Embeds `Address.validate_country_code` (`addresses_model.py`):
`checks_input` with `min_len=2, max_len=2`, then `str.isalpha` (false on the
empty string), then upper-casing. -/
def validate_country_code (value : Option String) : Except String String :=
  match checks_input_str value "country_code" true (some 2) (some 2) with
  | .error e => .error e
  | .ok none => .error "country_code is required"
  | .ok (some v) =>
    if !(decide (0 < v.length) && v.all Char.isAlpha) then
      .error "country_code must contain alphabetical letters only"
    else .ok v.toUpper

/-- Embeds `Address.validate_state_code` (`addresses_model.py`):
`checks_input` with `min_len=2, max_len=3`, then `str.isalpha`, then
upper-casing. -/
def validate_state_code (value : Option String) : Except String String :=
  match checks_input_str value "state_code" true (some 2) (some 3) with
  | .error e => .error e
  | .ok none => .error "state_code is required"
  | .ok (some v) =>
    if !(decide (0 < v.length) && v.all Char.isAlpha) then
      .error "street_code must contain alphabetical letters only"
    else .ok v.toUpper

/-- Embeds `Address.validate_city` (`addresses_model.py`): optional,
`max_len=50`, title-cased when non-empty, `None` otherwise. -/
def validate_city (value : Option String) : Except String (Option String) :=
  match checks_input_str value "city" false none (some 50) with
  | .error e => .error e
  | .ok none => .ok none
  | .ok (some v) => .ok (if v.length == 0 then none else some (pyTitle v))

/-- Embeds `Address.validate_street` (`addresses_model.py`): required,
`max_len=100`, title-cased. -/
def validate_street (value : Option String) : Except String String :=
  match checks_input_str value "street" true none (some 100) with
  | .error e => .error e
  | .ok none => .error "street is required"
  | .ok (some v) => .ok (pyTitle v)

/-- Embeds `Address.validate_postcode` (`addresses_model.py`): required,
`min_len=2, max_len=10`, hyphens and spaces removed, `str.isalnum` on the
result (false on the empty string), upper-cased. -/
def validate_postcode (value : Option String) : Except String String :=
  match checks_input_str value "postcode" true (some 2) (some 10) with
  | .error e => .error e
  | .ok none => .error "postcode is required"
  | .ok (some v0) =>
    let v := (v0.replace "-" "").replace " " ""
    if !(decide (0 < v.length) && v.all Char.isAlphanum) then
      .error "postcode may contain only alphanumeric, whitespace or hyphen characters"
    else .ok v.toUpper

/-- JSON payload of `POST /addresses` after parsing (absent keys are `none`;
the schema's `pre_load` strip and the model validators run inside
`validate_address_payload`). -/
structure AddressInput where
  country_code : Option String
  state_code : Option String
  city : Option String
  street : Option String
  postcode : Option String
deriving Repr, DecidableEq

/-- Runs the five `Address` model validators (`addresses_model.py`) over a
payload, producing the row columns to insert.  The schema layer
(`addresses_schema.py`) re-checks the same presence/length/charset
constraints, so acceptance coincides and either layer's failure is a 400. -/
def validate_address_payload (inp : AddressInput) :
    Except String (String × String × Option String × String × String) := do
  let cc ← validate_country_code inp.country_code
  let sc ← validate_state_code inp.state_code
  let city ← validate_city inp.city
  let street ← validate_street inp.street
  let pc ← validate_postcode inp.postcode
  pure (cc, sc, city, street, pc)

/-- Next value of the `addresses.id` sequence for an insert. -/
def freshAddressId (st : DBState) : Nat :=
  st.addresses.foldl (fun m a => max m a.id) 0 + 1

/-- Embeds the `POST /addresses` handler `create_address`
(`addresses_controllers.py`, lines 18-34).  A missing or unparseable JSON
body hits `abort(404, description="Json data is missing or invalid")` —
the literal status in the source (and asserted by
`test_bad_json_create_address`); any schema or model validation failure is a
400; otherwise the row is inserted and 201 returned. -/
def create_address_route (st : DBState) (body : Option AddressInput) : Nat × DBState :=
  match body with
  | none => (404, st)
  | some inp =>
    match validate_address_payload inp with
    | .error _ => (400, st)
    | .ok (cc, sc, city, street, pc) =>
      (201, { st with
        addresses := st.addresses ++ [⟨freshAddressId st, cc, sc, city, street, pc⟩] })

/-- Embeds the field handling of `PUT/PATCH /addresses/(id)`
(`addresses_controllers.py` plus `addresses_schema.py` and the model
validators): the schema loads with `partial = true_if_patch`, so on PUT an
absent required field (`country_code`, `state_code`, `street`, `postcode`)
is a 400 schema error while on PATCH it is simply skipped; `city` is
optional on both.  Each supplied field then runs its model validator via
`setattr`; an absent field keeps the stored column. -/
def apply_address_updates (true_if_patch : Bool) (addr : AddressRow)
    (inp : AddressInput) : Except String AddressRow := do
  let cc ← match inp.country_code with
    | none =>
      if true_if_patch then pure addr.country_code
      else throw "country_code is required"
    | some _ => validate_country_code inp.country_code
  let sc ← match inp.state_code with
    | none =>
      if true_if_patch then pure addr.state_code
      else throw "state_code is required"
    | some _ => validate_state_code inp.state_code
  let city ← match inp.city with
    | none => pure addr.city
    | some _ => validate_city inp.city
  let street ← match inp.street with
    | none =>
      if true_if_patch then pure addr.street
      else throw "street is required"
    | some _ => validate_street inp.street
  let pc ← match inp.postcode with
    | none =>
      if true_if_patch then pure addr.postcode
      else throw "postcode is required"
    | some _ => validate_postcode inp.postcode
  pure ⟨addr.id, cc, sc, city, street, pc⟩

/-- Embeds the `PUT`/`PATCH /addresses/(id)` handler `update_address`
(`addresses_controllers.py`, lines 69-101): id gate (400), 404 lookup — and
then, like the two create handlers but unlike every other JSON gate in the
code base, `abort(404, description="Json data is missing or invalid")` for
a missing or unparseable body (line 84).  A present body is schema- and
model-validated (failures 400) and the row is updated in place (200). -/
def update_address_route (st : DBState) (address_id : Nat) (method : HttpMethod)
    (body : Option AddressInput) : Nat × DBState :=
  if address_id < 1 then (400, st)
  else
    match st.addresses.find? (fun a2 => a2.id == address_id) with
    | none => (404, st)
    | some addr =>
      match body with
      | none => (404, st)
      | some inp =>
        match apply_address_updates (method == HttpMethod.patch) addr inp with
        | .error _ => (400, st)
        | .ok addr2 =>
          (200, { st with
            addresses := st.addresses.map
              (fun a2 => if a2.id == address_id then addr2 else a2) })

/-- Nested `name` object of a customer payload (`names_schema.py`). -/
structure NameInput where
  first_name : Option String
  last_name : Option String
deriving Repr, DecidableEq

/-- JSON payload of `POST /customers` after parsing. -/
structure CustomerInput where
  email : Option String
  phone : Option String
  address_id : Option Nat
  name : Option NameInput
deriving Repr, DecidableEq

/-- Columns produced by a successful customer payload validation. -/
structure LoadedCustomer where
  email : String
  phone : Option String
  address_id : Option Nat
  first_name : String
  last_name : Option String
deriving Repr, DecidableEq

/-- Runs the schema and model validation of a `POST /customers` payload
(`customers_schema.py`, `names_schema.py`, `names_model.py`,
`customers_model.py`): `name` and `email` required; `first_name` required
with length 3-50 (title-cased); `last_name` optional up to 50; `email`
length 3-254 and checked by the external validators (`emailOk` stands for
marshmallow's `Email` plus the `email_validator` library; its normalisation
of the stored address is not modelled); `phone` optional, length 7-20 and
checked by the external `phonenumbers` library (`phoneOk`); `address_id`
optional with `Range(min=1)`. -/
def validate_customer_payload (emailOk phoneOk : String → Bool)
    (inp : CustomerInput) : Except String LoadedCustomer := do
  let nameData ← match inp.name with
    | none => throw "name is required"
    | some n => pure n
  let fn ← match ← checks_input_str nameData.first_name "first_name" true (some 3) (some 50) with
    | some v => pure (pyTitle v)
    | none => throw "first_name is required"
  let ln ← match ← checks_input_str nameData.last_name "last_name" false none (some 50) with
    | some v => pure (if v.length == 0 then none else some (pyTitle v))
    | none => pure none
  let em ← match ← checks_input_str inp.email "email" true (some 3) (some 254) with
    | some v => if emailOk v then pure v else throw "Invalid email"
    | none => throw "email is required and must be valid"
  let ph ← match ← checks_input_str inp.phone "phone" false (some 7) (some 20) with
    | some v =>
      if v.length == 0 then pure none
      else if phoneOk v then pure (some v) else throw "Invalid phone number"
    | none => pure none
  match inp.address_id with
  | some aid => if aid < 1 then throw "address_id must be a positive integer if provided" else pure ()
  | none => pure ()
  pure ⟨em, ph, inp.address_id, fn, ln⟩

/-- Next value of the `names.id` sequence for an insert. -/
def freshNameId (st : DBState) : Nat :=
  st.names.foldl (fun m n => max m n.id) 0 + 1

/-- Next value of the `customers.id` sequence for an insert. -/
def freshCustomerId (st : DBState) : Nat :=
  st.customers.foldl (fun m c => max m c.id) 0 + 1

/-- Embeds the `POST /customers` handler `create_customer`
(`customers_controllers.py`, lines 18-41).  A missing or unparseable JSON
body hits `abort(404, description="Json data is missing or invalid")` — the
literal status in the source (asserted by `test_bad_json_create_customer`);
validation failures are 400; at commit the UNIQUE constraint on
`customers.email` and the FK `customers.address_id → addresses.id` can still
reject the insert with an `IntegrityError` (400); otherwise the Name row and
the Customer row are inserted and 201 returned. -/
def create_customer_route (emailOk phoneOk : String → Bool) (st : DBState)
    (body : Option CustomerInput) : Nat × DBState :=
  match body with
  | none => (404, st)
  | some inp =>
    match validate_customer_payload emailOk phoneOk inp with
    | .error _ => (400, st)
    | .ok ld =>
      if st.customers.any (fun c => c.email == ld.email) then (400, st)
      else if (match ld.address_id with
          | some aid => !(st.addresses.any (fun a => a.id == aid))
          | none => false) then (400, st)
      else
        let nid := freshNameId st
        (201, { st with
          names := st.names ++ [⟨nid, ld.first_name, ld.last_name⟩],
          customers := st.customers
            ++ [⟨freshCustomerId st, ld.email, ld.phone, nid, ld.address_id⟩] })

/-- The unit of work a `DELETE /customers/(id)` request flushes in its single
transaction: the customer row delete, the session-cascaded delete of the
owned Name, and the `delete_orphaned_address` listener, all before one
commit. -/
def deleteCustomerPending (st : DBState) (c : CustomerRow) : DBState :=
  delete_orphaned_address
    { st with
      customers := st.customers.filter (fun x => x.id != c.id),
      names := st.names.filter (fun n => n.id != c.name_id) }
    c

/-- The `delete_customer` route body as run under `handle_errors`, with the
database's verdict on the flushed unit of work made explicit: `dbCheck`
returns the error message of whatever constraint the flush violates (for
example if the listener's cascaded address delete conflicts with a
concurrent write), or `none` when the flush succeeds.  A violation surfaces
as an `IntegrityError` before the commit, so the transaction — the
triggering delete included — never commits. -/
def delete_customer_body (dbCheck : DBState → Option String) (customer_id : Nat)
    (st : DBState) : Except ApiErr (DBState × Nat) :=
  if customer_id < 1 then
    .error (.httpException 400 "Customer ID must be a positive integer")
  else
    match st.customers.find? (fun c => c.id == customer_id) with
    | none => .error (.httpException 404 "Customer not found")
    | some c =>
      let st1 := deleteCustomerPending st c
      match dbCheck st1 with
      | some msg => .error (.integrityErr msg)
      | none => .ok (st1, 200)

/-- Modelled from the spec wording of P6, as the comparison value for the
cached aggregate: the sum over an order's current `order_items` of
`quantity × book.price` (cents). -/
def order_items_price_sum (st : DBState) (oid : Nat) : Nat :=
  (st.order_items.filter (fun x => x.order_id == oid)).foldl
    (fun t x =>
      t + x.quantity * (((st.books.find? (fun b => b.id == x.book_id)).map BookRow.price).getD 0))
    0

/-! ## Concrete states used by witnesses and counterexamples -/

/-- One book, one author (owning name 1), one junction row: the author's last
link. -/
def dbC1a : DBState :=
  { names := [⟨1, "Pat", none⟩], addresses := [], authors := [⟨1, 1⟩], customers := [],
    books := [⟨1, 1999, false⟩], book_authors := [⟨1, 1⟩], orders := [], order_items := [] }

/-- Two books and two authors; author 2 is also linked to book 2, author 1
only to book 1. -/
def dbC1b : DBState :=
  { names := [⟨1, "Pat", none⟩, ⟨2, "Robin", none⟩], addresses := [],
    authors := [⟨1, 1⟩, ⟨2, 2⟩], customers := [],
    books := [⟨1, 1999, false⟩, ⟨2, 2999, false⟩],
    book_authors := [⟨1, 1⟩, ⟨1, 2⟩, ⟨2, 2⟩], orders := [], order_items := [] }

/-- The state after `deleteBookAuthorRow dbC1b (1, 1)` commits: the junction
row is gone, author 1 is orphaned and deleted, book 1 survives (author 2
still links it), and both `names` rows survive. -/
def stC1b : DBState :=
  { names := [⟨1, "Pat", none⟩, ⟨2, "Robin", none⟩], addresses := [],
    authors := [⟨2, 2⟩], customers := [],
    books := [⟨1, 1999, false⟩, ⟨2, 2999, false⟩],
    book_authors := [⟨1, 2⟩, ⟨2, 2⟩], orders := [], order_items := [] }

/-- One book (price $10.00), one order with a single item of quantity 1. -/
def dbC2 : DBState :=
  { names := [], addresses := [], authors := [], customers := [],
    books := [⟨1, 1000, false⟩], book_authors := [],
    orders := [⟨1, 1, 1000⟩], order_items := [⟨1, 1, 1⟩] }

/-- Two customers sharing address 1. -/
def dbC4a : DBState :=
  { names := [⟨1, "Ann", none⟩, ⟨2, "Bob", none⟩],
    addresses := [⟨1, "US", "CA", none, "1 First St", "90210"⟩],
    authors := [],
    customers := [⟨1, "ann@mail.test", none, 1, some 1⟩, ⟨2, "bob@mail.test", none, 2, some 1⟩],
    books := [], book_authors := [], orders := [], order_items := [] }

/-- A single customer referencing address 1; address 2 exists to repoint to. -/
def dbC4b : DBState :=
  { names := [⟨1, "Ann", none⟩],
    addresses := [⟨1, "US", "CA", none, "1 First St", "90210"⟩,
                  ⟨2, "US", "NY", none, "2 Second St", "10001"⟩],
    authors := [],
    customers := [⟨1, "ann@mail.test", none, 1, some 1⟩],
    books := [], book_authors := [], orders := [], order_items := [] }

/-- One customer (owning name 1) with an address that only it references. -/
def dbC5 : DBState :=
  { names := [⟨1, "Ann", none⟩],
    addresses := [⟨1, "US", "CA", none, "1 First St", "90210"⟩],
    authors := [],
    customers := [⟨1, "ann@mail.test", none, 1, some 1⟩],
    books := [], book_authors := [], orders := [], order_items := [] }

/-- Book 1 has authors 1 and 2; author 2 is also linked to book 2. -/
def dbC6 : DBState :=
  { names := [⟨1, "Pat", none⟩, ⟨2, "Robin", none⟩], addresses := [],
    authors := [⟨1, 1⟩, ⟨2, 2⟩], customers := [],
    books := [⟨1, 1999, false⟩, ⟨2, 2999, false⟩],
    book_authors := [⟨1, 1⟩, ⟨1, 2⟩, ⟨2, 2⟩], orders := [], order_items := [] }

/-- One order with two items; deleting one leaves the other. -/
def dbC7 : DBState :=
  { names := [], addresses := [], authors := [], customers := [], books := [],
    book_authors := [], orders := [⟨1, 7, 1000⟩], order_items := [⟨1, 1, 1⟩, ⟨2, 1, 1⟩] }

/-- Author 1 owns name 1; customer 1 owns name 2. -/
def dbC8 : DBState :=
  { names := [⟨1, "Pat", none⟩, ⟨2, "Ann", none⟩], addresses := [],
    authors := [⟨1, 1⟩],
    customers := [⟨1, "ann@mail.test", none, 2, none⟩],
    books := [], book_authors := [], orders := [], order_items := [] }

/-- One address and one order, for exercising the update-handler gates. -/
def dbC9 : DBState :=
  { names := [], addresses := [⟨1, "US", "CA", none, "1 First St", "90210"⟩],
    authors := [], customers := [], books := [], book_authors := [],
    orders := [⟨1, 1, 0⟩], order_items := [] }

/-- One book (price $10.00), one order whose single item has quantity 5. -/
def dbC10 : DBState :=
  { names := [], addresses := [], authors := [], customers := [],
    books := [⟨1, 1000, false⟩], book_authors := [],
    orders := [⟨1, 1, 1000⟩], order_items := [⟨1, 1, 5⟩] }

/-! ## Helper lemmas -/

theorem list_any_ext {α : Type} (l : List α) (p q : α → Bool)
    (h : ∀ a ∈ l, p a = q a) : l.any p = l.any q := by
  induction l with
  | nil => rfl
  | cons x xs ih =>
    simp only [List.any_cons]
    rw [h x (by simp), ih (fun a ha => h a (by simp [ha]))]

theorem list_any_filter {α : Type} (l : List α) (p q : α → Bool) :
    (l.filter p).any q = l.any (fun a => p a && q a) := by
  induction l with
  | nil => rfl
  | cons x xs ih =>
    by_cases hp : p x = true
    · simp [List.filter_cons, hp, ih]
    · simp only [Bool.not_eq_true] at hp
      simp [List.filter_cons, hp, ih]

theorem list_filter_ext {α : Type} (l : List α) (p q : α → Bool)
    (h : ∀ a ∈ l, p a = q a) : l.filter p = l.filter q := by
  induction l with
  | nil => rfl
  | cons x xs ih =>
    simp only [List.filter_cons]
    rw [h x (by simp), ih (fun a ha => h a (by simp [ha]))]

theorem list_filter_filter {α : Type} (l : List α) (p q : α → Bool) :
    (l.filter p).filter q = l.filter (fun a => p a && q a) := by
  induction l with
  | nil => rfl
  | cons x xs ih =>
    by_cases hp : p x = true
    · by_cases hq : q x = true
      · simp [List.filter_cons, hp, hq, ih]
      · simp only [Bool.not_eq_true] at hq
        simp [List.filter_cons, hp, hq, ih]
    · simp only [Bool.not_eq_true] at hp
      simp [List.filter_cons, hp, ih]

theorem list_filter_map_pres {α : Type} (l : List α) (g : α → α) (p : α → Bool)
    (h : ∀ x, p (g x) = p x) : (l.map g).filter p = (l.filter p).map g := by
  induction l with
  | nil => rfl
  | cons x xs ih =>
    simp only [List.map_cons, List.filter_cons, h x]
    by_cases hp : p x = true
    · simp [hp, ih]
    · simp only [Bool.not_eq_true] at hp
      simp [hp, ih]

theorem list_find_map_pres {α : Type} (l : List α) (g : α → α) (p : α → Bool)
    (h : ∀ x, p (g x) = p x) : (l.map g).find? p = (l.find? p).map g := by
  induction l with
  | nil => rfl
  | cons x xs ih =>
    simp only [List.map_cons, List.find?_cons, h x]
    by_cases hp : p x = true
    · simp [hp]
    · simp only [Bool.not_eq_true] at hp
      simp [hp, ih]



theorem deleteBookAuthorRow_ok_spec (st : DBState) (ba : BookAuthorRow) (st2 : DBState)
    (h : deleteBookAuthorRow st ba = Except.ok st2) :
    st2.names = st.names
    ∧ st2.order_items = st.order_items
    ∧ st2.book_authors = st.book_authors.filter
        (fun x => !(x.book_id == ba.book_id && x.author_id == ba.author_id))
    ∧ st2.authors = (if (st.book_authors.filter
          (fun x => !(x.book_id == ba.book_id && x.author_id == ba.author_id))).any
            (fun x => x.author_id == ba.author_id) then st.authors
        else st.authors.filter (fun a => a.id != ba.author_id))
    ∧ (st2.books = st.books
        ∨ st2.books = st.books.filter (fun b => b.id != ba.book_id)) := by
  unfold deleteBookAuthorRow delete_orphaned_author at h
  dsimp only at h
  cases h1 : (st.book_authors.filter
      (fun x => !(x.book_id == ba.book_id && x.author_id == ba.author_id))).any
      (fun x => x.author_id == ba.author_id) <;>
    simp only [h1, Bool.false_eq_true, ite_false, ite_true] at h <;>
  cases h2 : (st.book_authors.filter
      (fun x => !(x.book_id == ba.book_id && x.author_id == ba.author_id))).any
      (fun x => x.book_id == ba.book_id) <;>
    simp only [h2, Bool.false_eq_true, ite_false, ite_true] at h <;>
  cases h3 : st.order_items.any (fun oi => oi.book_id == ba.book_id) <;>
    try simp only [h3, Bool.false_eq_true, ite_false, ite_true] at h
  all_goals
    first
      | exact Except.noConfusion h
      | (injection h with h4
         subst h4
         refine ⟨rfl, rfl, rfl, ?_, ?_⟩
         · simp [h1]
         · first
             | exact Or.inl rfl
             | exact Or.inr rfl)

theorem deleteBookAuthorRow_ok_of_free (st : DBState) (ba : BookAuthorRow)
    (hfree : st.order_items.any (fun oi => oi.book_id == ba.book_id) = false) :
    ∃ st2, deleteBookAuthorRow st ba = Except.ok st2 := by
  unfold deleteBookAuthorRow delete_orphaned_author
  dsimp only
  cases h1 : (st.book_authors.filter
      (fun x => !(x.book_id == ba.book_id && x.author_id == ba.author_id))).any
      (fun x => x.author_id == ba.author_id) <;>
    simp only [h1, Bool.false_eq_true, ite_false, ite_true] <;>
  cases h2 : (st.book_authors.filter
      (fun x => !(x.book_id == ba.book_id && x.author_id == ba.author_id))).any
      (fun x => x.book_id == ba.book_id) <;>
    simp only [h2, hfree, Bool.false_eq_true, ite_false, ite_true]
  all_goals exact ⟨_, rfl⟩

theorem delete_orphaned_address_names (st : DBState) (c : CustomerRow) :
    (delete_orphaned_address st c).names = st.names := by
  unfold delete_orphaned_address
  cases c.address_id with
  | none => rfl
  | some aid =>
    dsimp only
    cases h0 : aid == 0 <;>
      cases h1 : st.customers.any (fun x => x.address_id == some aid) <;>
        simp only [h0, h1, Bool.false_eq_true, ite_false, ite_true]

theorem delete_orphaned_address_customers (st : DBState) (c : CustomerRow) :
    (delete_orphaned_address st c).customers = st.customers := by
  unfold delete_orphaned_address
  cases c.address_id with
  | none => rfl
  | some aid =>
    dsimp only
    cases h0 : aid == 0 <;>
      cases h1 : st.customers.any (fun x => x.address_id == some aid) <;>
        simp only [h0, h1, Bool.false_eq_true, ite_false, ite_true]

/-! ## Claim C3 -/

/-- Claim C3 states that a Book price of 0 is accepted only when
`discontinued` is true.  Evaluating the embedded code at price 0 shows the
model validator does the exact opposite — its guard reads
`if value == 0 and self.discontinued is True: raise` — so a discontinued
book with price 0 is rejected with the very message that documents the
intended rule, a non-discontinued book with price 0 is accepted, and the
schema layer performs no cross-field check at all. -/
theorem c3_price_zero_check_inverted :
    validate_price true 0 = Except.error "Price can only be 0 if discontinued"
    ∧ validate_price false 0 = Except.ok 0
    ∧ bookSchema_price_field (some 0) = Except.ok 0 :=
  ⟨rfl, rfl, rfl⟩

/-! ## Claim C9 -/

/-- Claim C9 counterexample: a request rejected for invalid input — a missing
or invalid JSON body on `POST /customers`, `POST /addresses`, or
`PUT/PATCH /addresses/(id)` with an existing id — receives status 404, not
the claimed 400 (`abort(404, description="Json data is missing or
invalid")` in all three handlers; the create gates are pinned by their
tests). -/
theorem c9_counterexample :
    (create_customer_route (fun _ => true) (fun _ => true)
        ⟨[], [], [], [], [], [], [], []⟩ none).1 = 404
    ∧ (create_address_route ⟨[], [], [], [], [], [], [], []⟩ none).1 = 404
    ∧ (update_address_route dbC9 1 HttpMethod.put none).1 = 404 :=
  ⟨rfl, rfl, rfl⟩

/-- Claim C9 as amended: schema validation, model validation and database
constraint failures are all answered with 400, and a present body never
produces a 404 from these handlers — but the missing/invalid-JSON gate of
`POST /customers`, `POST /addresses` and `PUT/PATCH /addresses/(id)`
answers 404 (its literal `abort(404, ...)`), an exception to the claimed
rule that 404 marks only nonexistent ids; the order handlers answer 400 at
the same gate. -/
theorem c9_amended_statuses (st : DBState) (emailOk phoneOk : String → Bool)
    (ainp : AddressInput) (cinp : CustomerInput) (method : HttpMethod)
    (address_id order_id : Nat) (addr : AddressRow) (o : OrderRow)
    (haid : 1 ≤ address_id)
    (hfinda : st.addresses.find? (fun a2 => a2.id == address_id) = some addr)
    (hoid : 1 ≤ order_id)
    (hfindo : st.orders.find? (fun x => x.id == order_id) = some o) :
    (create_address_route st none).1 = 404
    ∧ (create_customer_route emailOk phoneOk st none).1 = 404
    ∧ (update_address_route st address_id method none).1 = 404
    ∧ (create_order_route st none).1 = 400
    ∧ (update_order_route st order_id method none).1 = 400
    ∧ (∀ m, errStatus (ApiErr.validationErr m) = 400)
    ∧ (∀ m, errStatus (ApiErr.valueErr m) = 400)
    ∧ (∀ m, errStatus (ApiErr.integrityErr m) = 400)
    ∧ ((create_address_route st (some ainp)).1
        = if (validate_address_payload ainp).isOk then 201 else 400)
    ∧ ((update_address_route st address_id method (some ainp)).1 = 200
        ∨ (update_address_route st address_id method (some ainp)).1 = 400)
    ∧ ((create_customer_route emailOk phoneOk st (some cinp)).1 = 201
        ∨ (create_customer_route emailOk phoneOk st (some cinp)).1 = 400) := by
  have ha0 : ¬ address_id < 1 := by omega
  have ho0 : ¬ order_id < 1 := by omega
  refine ⟨rfl, rfl, ?_, rfl, ?_, fun m => rfl, fun m => rfl, fun m => rfl,
    ?_, ?_, ?_⟩
  · unfold update_address_route
    simp [ha0, hfinda]
  · unfold update_order_route
    simp [ho0, hfindo]
  · unfold create_address_route
    cases h : validate_address_payload ainp with
    | error e => simp [h, Except.isOk, Except.toBool]
    | ok v =>
      obtain ⟨cc, sc, city, street, pc⟩ := v
      simp [h, Except.isOk, Except.toBool]
  · unfold update_address_route
    simp only [ha0, ite_false, hfinda]
    cases h : apply_address_updates (method == HttpMethod.patch) addr ainp with
    | error e => right; simp [h]
    | ok addr2 => left; simp [h]
  · unfold create_customer_route
    cases h : validate_customer_payload emailOk phoneOk cinp with
    | error e => right; simp [h]
    | ok ld =>
      by_cases h1 : (st.customers.any fun c => c.email == ld.email) = true
      · right; simp [h, h1]
      · cases hA : ld.address_id with
        | none => left; simp [h, h1, hA]
        | some aid =>
          by_cases h2 : (st.addresses.any fun a => a.id == aid) = true
          · left; simp [h, h1, hA, h2]
          · right; simp [h, h1, hA, h2]

/-- Claim C9 witness: in `dbC9` (address 1 and order 1 exist) the JSON gates
answer 404 for the customer/address handlers and 400 for the order
handlers, and present bodies classify as stated. -/
theorem c9_witness :
    (create_address_route dbC9 none).1 = 404
    ∧ (create_customer_route (fun _ => true) (fun _ => true) dbC9 none).1 = 404
    ∧ (update_address_route dbC9 1 HttpMethod.patch none).1 = 404
    ∧ (create_order_route dbC9 none).1 = 400
    ∧ (update_order_route dbC9 1 HttpMethod.patch none).1 = 400
    ∧ (∀ m, errStatus (ApiErr.validationErr m) = 400)
    ∧ (∀ m, errStatus (ApiErr.valueErr m) = 400)
    ∧ (∀ m, errStatus (ApiErr.integrityErr m) = 400)
    ∧ ((create_address_route dbC9
          (some ⟨some "US", some "CA", none, some "1 First St", some "90210"⟩)).1
        = if (validate_address_payload
            ⟨some "US", some "CA", none, some "1 First St", some "90210"⟩).isOk
          then 201 else 400)
    ∧ ((update_address_route dbC9 1 HttpMethod.patch
          (some ⟨some "US", some "CA", none, some "1 First St", some "90210"⟩)).1 = 200
        ∨ (update_address_route dbC9 1 HttpMethod.patch
          (some ⟨some "US", some "CA", none, some "1 First St", some "90210"⟩)).1 = 400)
    ∧ ((create_customer_route (fun _ => true) (fun _ => true) dbC9
          (some ⟨some "ann@mail.test", none, none, some ⟨some "Ann", some "Lee"⟩⟩)).1 = 201
        ∨ (create_customer_route (fun _ => true) (fun _ => true) dbC9
          (some ⟨some "ann@mail.test", none, none, some ⟨some "Ann", some "Lee"⟩⟩)).1 = 400) :=
  c9_amended_statuses dbC9 (fun _ => true) (fun _ => true)
    ⟨some "US", some "CA", none, some "1 First St", some "90210"⟩
    ⟨some "ann@mail.test", none, none, some ⟨some "Ann", some "Lee"⟩⟩
    HttpMethod.patch 1 1
    ⟨1, "US", "CA", none, "1 First St", "90210"⟩ ⟨1, 1, 0⟩
    (by decide) (by decide) (by decide) (by decide)

/-! ## Claim C5 -/

/-- Claim C5: when the unit of work of a customer delete — the row delete,
the cascaded Name delete and the `delete_orphaned_address` cleanup — fails
the database's flush-time verdict, `handle_errors` rolls back and the
visible state is exactly the pre-request state; otherwise the visible state
carries the trigger and the cleanup together.  No third outcome exists, so a
state where the triggering delete persisted without its cleanup is never
visible. -/
theorem c5_rollback_atomicity (dbCheck : DBState → Option String)
    (st : DBState) (customer_id : Nat) :
    (handle_errors (delete_customer_body dbCheck customer_id) st).1 = st
    ∨ ∃ c, st.customers.find? (fun x => x.id == customer_id) = some c
        ∧ dbCheck (deleteCustomerPending st c) = none
        ∧ handle_errors (delete_customer_body dbCheck customer_id) st
            = (deleteCustomerPending st c, 200) := by
  unfold handle_errors delete_customer_body
  by_cases h0 : customer_id < 1
  · left; simp [h0]
  · cases hf : st.customers.find? (fun x => x.id == customer_id) with
    | none => left; simp [h0, hf]
    | some c =>
      cases hd : dbCheck (deleteCustomerPending st c) with
      | some msg => left; simp [h0, hf, hd]
      | none => right; exact ⟨c, rfl, hd, by simp [h0, hf, hd]⟩

/-! ## Claim C7 -/

/-- Claim C7: deleting an `order_items` row removes exactly that composite
key, and the order referenced by it is retained precisely while some
`order_items` row still references it — the `delete_orphaned_order` listener
deletes the order exactly when the removed item was the last one (orders not
referenced by the deleted item are untouched). -/
theorem c7_order_deleted_iff_last_item (st : DBState) (oi : OrderItemRow)
    (o : OrderRow) (ho : o ∈ st.orders) :
    ((deleteOrderItemRow st oi).order_items
        = st.order_items.filter
            (fun x => !(x.book_id == oi.book_id && x.order_id == oi.order_id)))
    ∧ (o ∈ (deleteOrderItemRow st oi).orders ↔
        o.id ≠ oi.order_id
        ∨ ((st.order_items.filter
              (fun x => !(x.book_id == oi.book_id && x.order_id == oi.order_id))).any
            (fun x => x.order_id == oi.order_id)) = true) := by
  constructor
  · unfold deleteOrderItemRow delete_orphaned_order
    dsimp only
    cases h1 : (st.order_items.filter
          (fun x => !(x.book_id == oi.book_id && x.order_id == oi.order_id))).any
        (fun x => x.order_id == oi.order_id) <;>
      simp only [h1, Bool.false_eq_true, ite_false, ite_true]
  · unfold deleteOrderItemRow delete_orphaned_order
    dsimp only
    cases h1 : (st.order_items.filter
          (fun x => !(x.book_id == oi.book_id && x.order_id == oi.order_id))).any
        (fun x => x.order_id == oi.order_id) with
    | false =>
      simp only [h1, Bool.false_eq_true, ite_false]
      simp [List.mem_filter, ho, bne_iff_ne]
    | true =>
      simp only [h1, ite_true]
      simp [ho]

/-- Claim C7 witness: in `dbC7` order 1 has items for books 1 and 2; deleting
the item `(1, 1)` leaves item `(2, 1)` and the theorem instantiates to the
order being retained. -/
theorem c7_witness :
    ((deleteOrderItemRow dbC7 ⟨1, 1, 1⟩).order_items
        = dbC7.order_items.filter
            (fun x => !(x.book_id == (1 : Nat) && x.order_id == (1 : Nat))))
    ∧ ((⟨1, 7, 1000⟩ : OrderRow) ∈ (deleteOrderItemRow dbC7 ⟨1, 1, 1⟩).orders ↔
        (⟨1, 7, 1000⟩ : OrderRow).id ≠ (1 : Nat)
        ∨ ((dbC7.order_items.filter
              (fun x => !(x.book_id == (1 : Nat) && x.order_id == (1 : Nat)))).any
            (fun x => x.order_id == (1 : Nat))) = true) :=
  c7_order_deleted_iff_last_item dbC7 ⟨1, 1, 1⟩ ⟨1, 7, 1000⟩ (by decide)

/-! ## Claim C8 -/

/-- Claim C8: a `names` row referenced by an author or a customer cannot be
deleted at the storage layer (both FKs are RESTRICT), while deleting a
customer through `DELETE /customers/(id)` also deletes exactly that
customer's Name via the session cascade. -/
theorem c8_name_restrict_and_cascade (st : DBState) (nid customer_id : Nat)
    (c : CustomerRow)
    (h1 : (st.authors.any (fun a => a.name_id == nid)
           || st.customers.any (fun x => x.name_id == nid)) = true)
    (hc : st.customers.find? (fun x => x.id == customer_id) = some c)
    (h2 : 1 ≤ customer_id)
    (hnoord : (st.orders.any (fun o => o.customer_id == customer_id)) = false)
    (hnoname : (st.authors.any (fun a => a.name_id == c.name_id)
        || st.customers.any (fun x => x.id != customer_id && x.name_id == c.name_id))
        = false) :
    deleteNameRow st nid
      = Except.error "ForeignKeyViolation: names row is still referenced"
    ∧ (delete_customer_route st customer_id).2.names
        = st.names.filter (fun n => n.id != c.name_id) := by
  constructor
  · unfold deleteNameRow
    simp [h1]
  · unfold delete_customer_route
    have h0 : ¬ customer_id < 1 := by omega
    simp only [h0, ite_false, hc, hnoord, hnoname, Bool.false_eq_true, if_false]
    rw [delete_orphaned_address_names]

/-- Claim C8 witness: in `dbC8` name 1 is owned by author 1 and name 2 by
customer 1; deleting name 1 directly is refused, and deleting customer 1
removes name 2. -/
theorem c8_witness :
    deleteNameRow dbC8 1
      = Except.error "ForeignKeyViolation: names row is still referenced"
    ∧ (delete_customer_route dbC8 1).2.names
        = dbC8.names.filter (fun n => n.id != (2 : Nat)) :=
  c8_name_restrict_and_cascade dbC8 1 1 ⟨1, "ann@mail.test", none, 2, none⟩
    (by decide) (by decide) (by decide) (by decide) (by decide)

/-! ## Claim C4 -/

/-- Claim C4 counterexample: repointing the last referencing customer away
from an address does NOT delete the address.  In `dbC4b` customer 1 is the
only customer referencing address 1; `PUT/PATCH /customers/1` with
`address_id = 2` succeeds (200) and leaves address 1 in the table although
no customer references it any more — the claim says the address is deleted
exactly when its last referencing customer is deleted *or repointed*. -/
theorem c4_counterexample :
    (update_customer_route dbC4b 1 (some 2)).1 = 200
    ∧ ((update_customer_route dbC4b 1 (some 2)).2.customers.any
        (fun x => x.address_id == some 1)) = false
    ∧ ((update_customer_route dbC4b 1 (some 2)).2.addresses.any
        (fun a => a.id == 1)) = true := by
  decide

/-- Claim C4 as amended: provided the customer delete itself commits (no
order references the customer — `Order.customer_id` is RESTRICT — and no
author, or duplicate customer, still references the owned Name), an address
is deleted automatically exactly when the last referencing customer is
*deleted* (the `delete_orphaned_address` listener fires only on customer
deletion, and the address survives whenever another customer still
references it); repointing a customer's `address_id` through
`update_customer` runs no orphan cleanup and never deletes an address, on
any of its branches. -/
theorem c4_address_orphan_on_delete_only (st : DBState)
    (customer_id aid : Nat) (c : CustomerRow) (addr : AddressRow)
    (h2 : 1 ≤ customer_id)
    (hc : st.customers.find? (fun x => x.id == customer_id) = some c)
    (ha : c.address_id = some aid)
    (haid : 1 ≤ aid)
    (hnoord : (st.orders.any (fun o => o.customer_id == customer_id)) = false)
    (hnoname : (st.authors.any (fun a => a.name_id == c.name_id)
        || st.customers.any (fun x => x.id != customer_id && x.name_id == c.name_id))
        = false)
    (haddr : addr ∈ st.addresses) :
    (addr ∈ (delete_customer_route st customer_id).2.addresses ↔
      addr.id ≠ aid
      ∨ (st.customers.any
          (fun x => x.id != customer_id && x.address_id == some aid)) = true)
    ∧ (∀ naid, (update_customer_route st customer_id naid).2.addresses
        = st.addresses) := by
  have h0 : ¬ customer_id < 1 := by omega
  constructor
  · unfold delete_customer_route
    simp only [h0, ite_false, hc, hnoord, hnoname, Bool.false_eq_true]
    unfold delete_orphaned_address
    rw [ha]
    have hz : (aid == 0) = false := by
      simp only [beq_eq_false_iff_ne, ne_eq]
      omega
    dsimp only
    rw [hz]
    simp only [Bool.false_eq_true, ite_false]
    rw [list_any_filter]
    cases h1 : st.customers.any
        (fun x => x.id != customer_id && x.address_id == some aid) with
    | true => simp only [h1, ite_true]; simp [haddr]
    | false =>
      simp only [h1, Bool.false_eq_true, ite_false]
      simp [List.mem_filter, haddr, bne_iff_ne]
  · intro naid
    unfold update_customer_route
    simp only [h0, ite_false, hc]
    cases naid with
    | none => rfl
    | some v =>
      dsimp only
      split
      · rfl
      · split
        · rfl
        · rfl

/-- Claim C4 witness (delete side): in `dbC4a` customers 1 and 2 share
address 1; deleting customer 1 retains the address because customer 2 still
references it. -/
theorem c4_witness :
    ((⟨1, "US", "CA", none, "1 First St", "90210"⟩ : AddressRow)
        ∈ (delete_customer_route dbC4a 1).2.addresses ↔
      (⟨1, "US", "CA", none, "1 First St", "90210"⟩ : AddressRow).id ≠ 1
      ∨ (dbC4a.customers.any
          (fun x => x.id != (1 : Nat) && x.address_id == some 1)) = true)
    ∧ (∀ naid, (update_customer_route dbC4a 1 naid).2.addresses
        = dbC4a.addresses) :=
  c4_address_orphan_on_delete_only dbC4a 1 1
    ⟨1, "ann@mail.test", none, 1, some 1⟩
    ⟨1, "US", "CA", none, "1 First St", "90210"⟩
    (by decide) (by decide) (by decide) (by decide) (by decide) (by decide)
    (by decide)

/-! ## Claim C1 -/

/-- Claim C1 counterexample: deleting the single `book_authors` row of
`dbC1a` leaves author 1 with no other links, so the claim requires author 1
*and its owned Name* to be deleted; the flush commits (no `order_items`
row references book 1, so the RESTRICT FK does not fire), the listener
deletes the author (and the now-authorless book) but the `names` table
still holds the author's Name — the connection-level `delete(Author)`
bypasses the ORM cascade and no database action deletes the Name. -/
theorem c1_counterexample :
    ((dbC1a.book_authors.filter
        (fun x => !(x.book_id == 1 && x.author_id == 1))).any
      (fun x => x.author_id == 1)) = false
    ∧ deleteBookAuthorRow dbC1a ⟨1, 1⟩ = Except.ok
        { names := [⟨1, "Pat", none⟩], addresses := [], authors := [],
          customers := [], books := [], book_authors := [],
          orders := [], order_items := [] } :=
  ⟨by decide, rfl⟩

/-- Claim C1 as amended: when the flush of a `book_authors` delete commits
(the listener returns `ok` — it raises only when the orphaned book is still
referenced by `order_items`, whose FK is RESTRICT), the linked Author is
deleted exactly when no other `book_authors` row still references it (and
retained otherwise), but the cleanup never touches the `names` table — an
orphaned Author's Name row is always retained by this path. -/
theorem c1_author_orphan_no_name_cascade (st : DBState) (ba : BookAuthorRow)
    (st2 : DBState) (a : AuthorRow) (ha : a ∈ st.authors)
    (hok : deleteBookAuthorRow st ba = Except.ok st2) :
    (st2.names = st.names)
    ∧ (a ∈ st2.authors ↔
        a.id ≠ ba.author_id
        ∨ ((st.book_authors.filter
              (fun x => !(x.book_id == ba.book_id && x.author_id == ba.author_id))).any
            (fun x => x.author_id == ba.author_id)) = true) := by
  obtain ⟨hnm, hoi, hba, hauth, hbooks⟩ := deleteBookAuthorRow_ok_spec st ba st2 hok
  refine ⟨hnm, ?_⟩
  rw [hauth]
  cases h1 : (st.book_authors.filter
        (fun x => !(x.book_id == ba.book_id && x.author_id == ba.author_id))).any
      (fun x => x.author_id == ba.author_id) with
  | true => simp only [ite_true]; simp [ha]
  | false =>
    simp only [Bool.false_eq_true, ite_false]
    simp [List.mem_filter, ha, bne_iff_ne]

/-- Claim C1 witness: in `dbC1b` author 1 is linked only to book 1; deleting
the row `(1, 1)` commits and orphans author 1 (no remaining link, so the
membership right-hand side is false) while the `names` table is unchanged. -/
theorem c1_witness :
    (stC1b.names = dbC1b.names)
    ∧ ((⟨1, 1⟩ : AuthorRow) ∈ stC1b.authors ↔
        (⟨1, 1⟩ : AuthorRow).id ≠ (1 : Nat)
        ∨ ((dbC1b.book_authors.filter
              (fun x => !(x.book_id == (1 : Nat) && x.author_id == (1 : Nat)))).any
            (fun x => x.author_id == (1 : Nat))) = true) :=
  c1_author_orphan_no_name_cascade dbC1b ⟨1, 1⟩ stC1b ⟨1, 1⟩ (by decide) rfl

/-! ## Claim C6: lemmas about the cascade fold -/

theorem list_filter_false {α : Type} (l : List α) (p : α → Bool)
    (h : ∀ a ∈ l, p a = false) : l.filter p = [] := by
  induction l with
  | nil => rfl
  | cons x xs ih =>
    rw [List.filter_cons]
    rw [h x (by simp)]
    simp only [Bool.false_eq_true, ite_false]
    exact ih (fun a ha => h a (by simp [ha]))

theorem list_any_false {α : Type} (l : List α) (p : α → Bool)
    (h : ∀ a ∈ l, p a = false) : l.any p = false := by
  induction l with
  | nil => rfl
  | cons x xs ih =>
    rw [List.any_cons]
    rw [h x (by simp)]
    simp only [Bool.false_or]
    exact ih (fun a ha => h a (by simp [ha]))

/-- Folding the session delete over a list of junction rows that all belong
to book `B`, when no `order_items` row references `B`: every step commits,
`names` and `order_items` are untouched, the listed junction rows are
removed, books other than `B` survive, and an author survives exactly when
it is not listed or still holds a link to another book. -/
theorem foldlM_deleteBookAuthorRow_spec (l : List BookAuthorRow) (s : DBState)
    (B : Nat) (hB : ∀ ba ∈ l, ba.book_id = B)
    (hfree : s.order_items.any (fun oi => oi.book_id == B) = false) :
    ∃ s1, List.foldlM deleteBookAuthorRow s l = Except.ok s1
      ∧ s1.names = s.names
      ∧ s1.order_items = s.order_items
      ∧ s1.book_authors = s.book_authors.filter
          (fun x => l.all
            (fun ba => !(x.book_id == ba.book_id && x.author_id == ba.author_id)))
      ∧ s1.books.filter (fun b => b.id != B) = s.books.filter (fun b => b.id != B)
      ∧ s1.authors = s.authors.filter
          (fun a => !((l.map (fun ba => ba.author_id)).contains a.id)
            || s.book_authors.any (fun x => x.author_id == a.id && x.book_id != B)) := by
  induction l generalizing s with
  | nil =>
    refine ⟨s, rfl, rfl, rfl, ?_, rfl, ?_⟩
    · simp
    · simp
  | cons ba rest ih =>
    have hbb : ba.book_id = B := hB ba (by simp)
    have hfree1 : s.order_items.any (fun oi => oi.book_id == ba.book_id) = false := by
      rw [hbb]; exact hfree
    obtain ⟨s2, hok2⟩ := deleteBookAuthorRow_ok_of_free s ba hfree1
    obtain ⟨hnm, hoi, hba2, hauth, hbooks⟩ := deleteBookAuthorRow_ok_spec s ba s2 hok2
    have hfree2 : s2.order_items.any (fun oi => oi.book_id == B) = false := by
      rw [hoi]; exact hfree
    obtain ⟨s1, hfold, ihnm, ihoi, ihba, ihbooks, ihauth⟩ :=
      ih s2 (fun x hx => hB x (by simp [hx])) hfree2
    refine ⟨s1, ?_, ?_, ?_, ?_, ?_, ?_⟩
    · rw [List.foldlM_cons, hok2]
      exact hfold
    · rw [ihnm, hnm]
    · rw [ihoi, hoi]
    · rw [ihba, hba2, list_filter_filter]
      apply list_filter_ext
      intro x _
      simp [List.all_cons]
    · rw [ihbooks]
      rcases hbooks with h | h
      · rw [h]
      · rw [h, list_filter_filter]
        apply list_filter_ext
        intro x _
        rw [hbb, Bool.and_self]
    · rw [ihauth, hauth, hba2]
      have hcond : ((s.book_authors.filter
            (fun x => !(x.book_id == ba.book_id && x.author_id == ba.author_id))).any
          (fun x => x.author_id == ba.author_id))
          = s.book_authors.any
              (fun x => x.author_id == ba.author_id && x.book_id != B) := by
        rw [list_any_filter]
        apply list_any_ext
        intro x _
        rw [hbb]
        cases hb : x.book_id == B with
        | false =>
          have hbne : x.book_id ≠ B := by simpa using hb
          cases hax : x.author_id == ba.author_id <;> simp [hb, hax, hbne]
        | true =>
          have hbeq : x.book_id = B := by simpa using hb
          cases hax : x.author_id == ba.author_id <;> simp [hb, hax, hbeq]
      rw [hcond]
      have hany : ∀ aid2 : Nat,
          ((s.book_authors.filter
              (fun x => !(x.book_id == ba.book_id && x.author_id == ba.author_id))).any
            (fun x => x.author_id == aid2 && x.book_id != B))
          = s.book_authors.any (fun x => x.author_id == aid2 && x.book_id != B) := by
        intro aid2
        rw [list_any_filter]
        apply list_any_ext
        intro x _
        rw [hbb]
        cases hb : x.book_id == B with
        | false =>
          have hbne : x.book_id ≠ B := by simpa using hb
          simp [hb, hbne]
        | true =>
          have hbeq : x.book_id = B := by simpa using hb
          simp [hb, hbeq]
      cases h1 : s.book_authors.any
          (fun x => x.author_id == ba.author_id && x.book_id != B) with
      | true =>
        simp only [ite_true]
        apply list_filter_ext
        intro a _
        rw [hany a.id]
        by_cases hid : a.id = ba.author_id
        · simp [hid, h1]
        · simp [hid]
      | false =>
        simp only [Bool.false_eq_true, ite_false]
        rw [list_filter_filter]
        apply list_filter_ext
        intro a _
        rw [hany a.id]
        by_cases hid : a.id = ba.author_id
        · simp [hid, h1]
        · simp [hid]

theorem list_all_eq_false_of_mem {α : Type} (l : List α) (p : α → Bool) (x : α)
    (hx : x ∈ l) (hp : p x = false) : l.all p = false := by
  induction l with
  | nil => cases hx
  | cons y ys ih =>
    rw [List.all_cons]
    rcases List.mem_cons.mp hx with h | h
    · rw [← h, hp, Bool.false_and]
    · rw [ih h, Bool.and_false]

/-- Claim C6: provided the book is not referenced by any `order_items` row
(the `OrderItem.book_id` FK is RESTRICT, so otherwise the whole request
fails and rolls back), `DELETE /books/(id)` removes every `book_authors`
row of the book and the book itself, and each author that was linked to the
book is retained afterwards exactly when it still has a `book_authors` link
to some other book — one independent orphan check per author, performed by
the listener as the junction rows are flushed away. -/
theorem c6_delete_book_cascade (st : DBState) (B : Nat) (b : BookRow)
    (a : AuthorRow)
    (hB1 : 1 ≤ B)
    (hfind : st.books.find? (fun x => x.id == B) = some b)
    (hfree : st.order_items.any (fun oi => oi.book_id == B) = false)
    (ha : a ∈ st.authors)
    (hlink : st.book_authors.any
        (fun x => x.book_id == B && x.author_id == a.id) = true) :
    ((delete_book_route st B).2.book_authors
        = st.book_authors.filter (fun x => x.book_id != B))
    ∧ ((delete_book_route st B).2.books = st.books.filter (fun x => x.id != B))
    ∧ (a ∈ (delete_book_route st B).2.authors ↔
        st.book_authors.any
            (fun x => x.author_id == a.id && x.book_id != B) = true) := by
  have h0 : ¬ B < 1 := by omega
  have hBl : ∀ ba ∈ st.book_authors.filter (fun ba => ba.book_id == B),
      ba.book_id = B := by
    intro x hx
    simpa using (List.mem_filter.mp hx).2
  obtain ⟨st1, hok, hnm, hoi, hba0, hbooks, hauth⟩ :=
    foldlM_deleteBookAuthorRow_spec
      (st.book_authors.filter (fun ba => ba.book_id == B)) st B hBl hfree
  have hba1 : st1.book_authors
      = st.book_authors.filter (fun x => x.book_id != B) := by
    rw [hba0]
    apply list_filter_ext
    intro x hx
    cases hxb : x.book_id == B with
    | false =>
      have hall : (st.book_authors.filter (fun ba => ba.book_id == B)).all
          (fun ba => !(x.book_id == ba.book_id && x.author_id == ba.author_id))
          = true := by
        rw [List.all_eq_true]
        intro ba hba
        have hb := hBl ba hba
        simp [hb, hxb]
      rw [hall]
      simp [bne, hxb]
    | true =>
      have hmem : x ∈ st.book_authors.filter (fun ba => ba.book_id == B) :=
        List.mem_filter.mpr ⟨hx, hxb⟩
      rw [list_all_eq_false_of_mem _ _ x hmem (by simp)]
      simp [bne, hxb]
  have hempty : st1.authors.filter
        (fun a2 => st1.book_authors.any
          (fun ba => ba.book_id == B && ba.author_id == a2.id)) = [] := by
    apply list_filter_false
    intro a2 _
    rw [hba1, list_any_filter]
    apply list_any_false
    intro x _
    cases hxb : x.book_id == B <;> simp [bne, hxb]
  unfold delete_book_route
  simp only [h0, ite_false, hfind]
  rw [hok]
  dsimp only
  rw [hempty]
  simp only [List.foldl_nil]
  rw [hoi]
  simp only [hfree, Bool.false_eq_true, ite_false]
  refine ⟨hba1, hbooks, ?_⟩
  rw [hauth]
  have hcont : ((List.map (fun ba => ba.author_id)
        (st.book_authors.filter (fun ba => ba.book_id == B))).contains a.id)
      = true := by
    rw [List.any_eq_true] at hlink
    obtain ⟨x, hxmem, hx⟩ := hlink
    rw [Bool.and_eq_true] at hx
    have hxf : x ∈ st.book_authors.filter (fun ba => ba.book_id == B) :=
      List.mem_filter.mpr ⟨hxmem, hx.1⟩
    have hmap : a.id ∈ List.map (fun ba => ba.author_id)
        (st.book_authors.filter (fun ba => ba.book_id == B)) :=
      List.mem_map.mpr ⟨x, hxf, by simpa using hx.2⟩
    simpa using hmap
  simp only [List.mem_filter, ha, true_and, hcont, Bool.not_true, Bool.false_or]

/-- Claim C6 witness: in `dbC6` book 1 has authors 1 and 2 and no order
item references it; deleting book 1 removes both junction rows and the
book, and author 2 (also linked to book 2) is retained — the instantiated
right-hand side is true. -/
theorem c6_witness :
    ((delete_book_route dbC6 1).2.book_authors
        = dbC6.book_authors.filter (fun x => x.book_id != (1 : Nat)))
    ∧ ((delete_book_route dbC6 1).2.books
        = dbC6.books.filter (fun x => x.id != (1 : Nat)))
    ∧ ((⟨2, 2⟩ : AuthorRow) ∈ (delete_book_route dbC6 1).2.authors ↔
        dbC6.book_authors.any
            (fun x => x.author_id == (2 : Nat) && x.book_id != (1 : Nat)) = true) :=
  c6_delete_book_cascade dbC6 1 ⟨1, 1999, false⟩ ⟨2, 2⟩
    (by decide) (by decide) (by decide) (by decide) (by decide)

/-! ## Claim C2 -/

/-- Claim C2 evaluated at the failing input: order 1 holds one item (book 1,
price $10.00, quantity 1); a `PATCH /orders/1` whose `order_items` lists book
1 twice (quantities 2 and 3) succeeds with 200 — the duplicate check guards
only the new-item branch, so both entries hit the existing-item branch, the
stored quantity ends at 3, but `total_price` accumulated both contributions:
the stored `price_total` is $50.00 while the sum over the then-current items
is $30.00, violating the claimed invariant after a successful update. -/
theorem c2_price_total_duplicate_entries_bug :
    (update_order_route dbC2 1 HttpMethod.patch
        (some ⟨none, none, some [⟨some 1, some 2⟩, ⟨some 1, some 3⟩]⟩)).1 = 200
    ∧ (update_order_route dbC2 1 HttpMethod.patch
        (some ⟨none, none, some [⟨some 1, some 2⟩, ⟨some 1, some 3⟩]⟩)).2.order_items
        = [⟨1, 1, 3⟩]
    ∧ (update_order_route dbC2 1 HttpMethod.patch
        (some ⟨none, none, some [⟨some 1, some 2⟩, ⟨some 1, some 3⟩]⟩)).2.orders
        = [⟨1, 1, 5000⟩]
    ∧ order_items_price_sum
        (update_order_route dbC2 1 HttpMethod.patch
          (some ⟨none, none, some [⟨some 1, some 2⟩, ⟨some 1, some 3⟩]⟩)).2 1
        = 3000 := by
  decide

/-! ## Claim C10 -/

/-- Claim C10 counterexample: on `PUT /orders/1` (not PATCH) an order_items
entry that omits `quantity` is not assigned quantity 1 — the schema loads
with `partial=False`, `quantity` is `required=True`, and the request is
rejected with 400 leaving the existing item's quantity at 5. -/
theorem c10_counterexample :
    update_order_route dbC10 1 HttpMethod.put
        (some ⟨some 1, some 1000, some [⟨some 1, none⟩]⟩) = (400, dbC10)
    ∧ dbC10.order_items = [⟨1, 1, 5⟩] := by
  decide

/-- Claim C10 as amended: on `PATCH /orders/(id)` an order_items entry that
omits `quantity` is assigned quantity 1, and when it names a book already on
the order the existing item's quantity is overwritten to 1 with
`price_total` recomputed from quantity 1; on `PUT` the same entry is rejected
by the schema (`quantity` is `required=True` and partial loading applies
only to PATCH), answering 400 and leaving the state unchanged. -/
theorem c10_patch_defaults_quantity_put_rejects (st : DBState) (oid b : Nat)
    (order : OrderRow) (book : BookRow) (itm : OrderItemRow)
    (h1 : 1 ≤ oid) (h2 : 1 ≤ b)
    (horder : st.orders.find? (fun o => o.id == oid) = some order)
    (hcust : 1 ≤ order.customer_id)
    (hbook : st.books.find? (fun x => x.id == b) = some book)
    (hp : book.price ≤ 99999)
    (hitems : st.order_items.filter (fun x => x.order_id == oid) = [itm])
    (hib : itm.book_id = b)
    (hoeq : itm.order_id = oid) :
    ((update_order_route st oid HttpMethod.patch
        (some ⟨some order.customer_id, some 0, some [⟨some b, none⟩]⟩)).1 = 200
     ∧ (update_order_route st oid HttpMethod.patch
          (some ⟨some order.customer_id, some 0,
            some [⟨some b, none⟩]⟩)).2.order_items.filter
            (fun x => x.order_id == oid) = [⟨b, oid, 1⟩]
     ∧ (update_order_route st oid HttpMethod.patch
          (some ⟨some order.customer_id, some 0,
            some [⟨some b, none⟩]⟩)).2.orders.find?
            (fun o => o.id == oid) = some { order with price_total := book.price })
    ∧ update_order_route st oid HttpMethod.put
        (some ⟨some order.customer_id, some 0, some [⟨some b, none⟩]⟩)
        = (400, st) := by
  have h0 : ¬ oid < 1 := by omega
  have hc0 : ¬ order.customer_id < 1 := by omega
  have hple : ¬ 999999 < book.price := by omega
  obtain ⟨ib, io, iq⟩ := itm
  dsimp only at hib hoeq
  subst hib
  subst hoeq
  have horder_p : (order.id == io) = true := (List.find?_eq_some.mp horder).1
  have hb0 : (ib == 0) = false := by
    simp only [beq_eq_false_iff_ne, ne_eq]
    omega
  have hload : load_order_schema true
      ⟨some order.customer_id, some 0, some [⟨some ib, none⟩]⟩
      = Except.ok ⟨some order.customer_id, some 0, some [⟨some ib, none⟩]⟩ := by
    simp [load_order_schema, schema_check_order_item, hc0, pure, Except.pure,
      Bind.bind, Except.bind, List.forM]
  have hloadP : load_order_schema false
      ⟨some order.customer_id, some 0, some [⟨some ib, none⟩]⟩
      = Except.error (ApiErr.validationErr
          "quantity is required and must be an integer") := by
    simp [load_order_schema, schema_check_order_item, hc0, pure, Except.pure,
      Bind.bind, Except.bind, List.forM, throw, throwThe, MonadExceptOf.throw,
      Functor.map, Except.map]
  have hfind1 : List.find? (fun x => x.book_id == ib)
      [(⟨ib, io, iq⟩ : OrderItemRow)] = some ⟨ib, io, iq⟩ := by
    simp [List.find?]
  have hproc : processItems st io [⟨ib, io, iq⟩] [⟨some ib, none⟩] ⟨[], 0, [], []⟩
      = Except.ok ⟨[ib], book.price, [], [(ib, 1)]⟩ := by
    simp [processItems, hb0, hfind1, hbook]
  have hpres : ∀ x : OrderItemRow,
      (((if x.order_id == io && x.book_id == ib then { x with quantity := 1 }
        else x) : OrderItemRow).order_id == io) = (x.order_id == io) := by
    intro x
    cases hc : x.order_id == io && x.book_id == ib <;> simp [hc]
  have hpres2 : ∀ o : OrderRow,
      (((if o.id == io then { o with price_total := book.price } else o) :
        OrderRow).id == io) = (o.id == io) := by
    intro o
    cases hc : o.id == io <;> simp [hc]
  have hroutePatch : update_order_route st io HttpMethod.patch
      (some ⟨some order.customer_id, some 0, some [⟨some ib, none⟩]⟩)
      = (200, { st with
          order_items := applyQtyUpdates io st.order_items [(ib, 1)],
          orders := st.orders.map (fun o =>
            if o.id == io then { o with price_total := book.price } else o) }) := by
    unfold update_order_route
    simp [h0, horder, hload, hitems, hproc, hple, applyQtyUpdates]
  refine ⟨⟨?_, ?_, ?_⟩, ?_⟩
  · rw [hroutePatch]
  · rw [hroutePatch]
    dsimp only
    unfold applyQtyUpdates
    rw [List.foldl_cons, List.foldl_nil]
    rw [list_filter_map_pres _ _ _ hpres, hitems]
    simp
  · rw [hroutePatch]
    dsimp only
    rw [list_find_map_pres _ _ _ hpres2, horder]
    have hoi : order.id = io := by simpa using horder_p
    simp [hoi]
  · have hpp : (HttpMethod.put == HttpMethod.patch) = false := by decide
    unfold update_order_route
    simp [h0, horder, hpp, hloadP]

/-- Claim C10 witness: in `dbC10` order 1 holds the single item (book 1,
quantity 5); a `PATCH` entry for book 1 omitting quantity overwrites the
quantity to 1 and recomputes `price_total` to the book price, while the same
body via `PUT` is rejected with 400. -/
theorem c10_witness :
    ((update_order_route dbC10 1 HttpMethod.patch
        (some ⟨some 1, some 0, some [⟨some 1, none⟩]⟩)).1 = 200
     ∧ (update_order_route dbC10 1 HttpMethod.patch
          (some ⟨some 1, some 0, some [⟨some 1, none⟩]⟩)).2.order_items.filter
            (fun x => x.order_id == (1 : Nat)) = [⟨1, 1, 1⟩]
     ∧ (update_order_route dbC10 1 HttpMethod.patch
          (some ⟨some 1, some 0, some [⟨some 1, none⟩]⟩)).2.orders.find?
            (fun o => o.id == (1 : Nat))
          = some { (⟨1, 1, 1000⟩ : OrderRow) with
              price_total := (⟨1, 1000, false⟩ : BookRow).price })
    ∧ update_order_route dbC10 1 HttpMethod.put
        (some ⟨some 1, some 0, some [⟨some 1, none⟩]⟩) = (400, dbC10) :=
  c10_patch_defaults_quantity_put_rejects dbC10 1 1 ⟨1, 1, 1000⟩ ⟨1, 1000, false⟩
    ⟨1, 1, 5⟩ (by decide) (by decide) (by decide) (by decide) (by decide)
    (by decide) (by decide) (by decide) (by decide)
